import Mathlib

/-!
Verification of the prompt-optimizer service (`optimizer/api.py`).

The service is a FastAPI application with three endpoints:
`POST /optimize` (`optimize_prompt`), `GET /prompts/{name}` (`get_prompt`)
and `POST /rollout/{name}/promote` (`promote_rollout`).  The Langfuse
registry client is an external collaborator; here it is passed in
explicitly as a function (for `create_prompt`) or as an in-memory store
of versions (for `get_prompt`), so that the handlers stay pure.

Python strings are modelled as `List Char`; `str.lower` is modelled by
mapping `Char.toLower` (the objective keywords are ASCII), `in` by
`containsSub`, and `str.replace` by `pyReplace` (left-to-right,
non-overlapping, as CPython does for a non-empty pattern).  Python
floats are modelled as rationals; no claim computes with them.
-/

namespace PromptOpt

/-- Python strings, modelled as lists of characters. -/
abbrev Str := List Char

/-- Model of `str.lower` (the keywords matched by the service are ASCII). -/
def strLower (s : Str) : Str := s.map Char.toLower

/-- `strStartsWith p s` is true when `p` is an initial segment of `s`. -/
def strStartsWith : Str → Str → Bool
  | [], _ => true
  | _ :: _, [] => false
  | a :: p, b :: s => a == b && strStartsWith p s

/-- Model of Python's `needle in haystack` substring test. -/
def containsSub (needle : Str) : Str → Bool
  | [] => strStartsWith needle []
  | c :: t => strStartsWith needle (c :: t) || containsSub needle t

/-- Fuel-driven worker for `pyReplace`; each step consumes at least one
character of the subject, so `s.length` fuel is always enough. -/
def replaceAllAux (old new : Str) : Nat → Str → Str
  | 0, s => s
  | _ + 1, [] => []
  | fuel + 1, c :: rest =>
    if strStartsWith old (c :: rest) then
      new ++ replaceAllAux old new fuel (rest.drop (old.length - 1))
    else
      c :: replaceAllAux old new fuel rest

/-- Model of Python's `s.replace(old, new)` for a non-empty `old`:
replace every occurrence, scanning left to right without overlap. -/
def pyReplace (s old new : Str) : Str := replaceAllAux old new s.length s

/-- One message of a chat prompt (`{"role": ..., "content": ...}`). -/
structure ChatMessage where
  role : Str
  content : Str
deriving DecidableEq

/-- Runtime shape of `PromptDraft.prompt` (declared `Any` in the source):
a plain string for text prompts or an ordered message list for chat. -/
inductive PromptContent where
  | str : Str → PromptContent
  | arr : List ChatMessage → PromptContent
deriving DecidableEq

/-- `PromptConfig` pydantic model (all fields optional). -/
structure PromptConfig where
  temperature : Option Rat
  max_tokens : Option Int
  model : Option Str
deriving DecidableEq

/-- `PromptDraft` pydantic model.  Its `prompt` field is declared `Any`,
so pydantic performs no shape check on it. -/
structure PromptDraft where
  type : Str
  prompt : PromptContent
  config : Option PromptConfig
deriving DecidableEq

/-- `RolloutConfig` pydantic model; `percentage` carries `ge=0, le=100`. -/
structure RolloutConfig where
  strategy : Str
  percentage : Int
  evaluation_metric : Str
  threshold : Rat
deriving DecidableEq

/-- `OptimizeRequest` pydantic model. -/
structure OptimizeRequest where
  name : Str
  current_prompt : Option Str
  draft : PromptDraft
  objective : Str
  commit_message : Option Str
  labels : List Str
  rollout : Option RolloutConfig
deriving DecidableEq

/-- The clarifying suffix appended by the clarity branch of
`optimize_prompt` (line 119 of `api.py`). -/
def claritySuffix : Str := "\n\nPlease provide clear, structured responses.".toList

/-- Clarity branch: append the suffix when the content is a string
(`isinstance(optimized_prompt, str)`), otherwise leave it unchanged. -/
def clarityTransform : PromptContent → PromptContent
  | .str s => .str (s ++ claritySuffix)
  | .arr ms => .arr ms

/-- The conciseness substitutions of line 123 of `api.py`:
`.replace("Please ", "").replace(" very ", " ")`. -/
def conciseContent (s : Str) : Str :=
  pyReplace (pyReplace s ("Please ".toList) []) (" very ".toList) (" ".toList)

/-- Conciseness branch: substitutions on string content only. -/
def conciseTransform : PromptContent → PromptContent
  | .str s => .str (conciseContent s)
  | .arr ms => .arr ms

/-- The simulated optimization of `optimize_prompt` (lines 113-123):
an `if`/`elif` on keywords of the lower-cased objective, falling
through to the identity. -/
def optimizeContent (objective : Str) (content : PromptContent) : PromptContent :=
  if containsSub ("clarity".toList) (strLower objective) then
    clarityTransform content
  else if containsSub ("concise".toList) (strLower objective)
      || containsSub ("reduce tokens".toList) (strLower objective) then
    conciseTransform content
  else
    content

/-- One phase of the rollout plan dictionary built at lines 128-138. -/
structure RolloutPhase where
  percentage : Int
  duration : Str
  labels : List Str
deriving DecidableEq

/-- The rollout plan dictionary built at lines 128-138 of `api.py`. -/
structure RolloutPlan where
  strategy : Str
  phases : List RolloutPhase
  evaluation_metric : Str
  threshold : Rat
  rollback_on_failure : Bool
deriving DecidableEq

/-- The rollout planner of `optimize_prompt` (lines 127-138): three
hard-coded phases, `rollback_on_failure` true, metric and threshold
copied from the config. -/
def makeRolloutPlan (config : RolloutConfig) (target_labels : List Str) : RolloutPlan :=
  { strategy := config.strategy
    phases :=
      [ { percentage := config.percentage, duration := "1h".toList, labels := ["canary".toList] },
        { percentage := 50, duration := "4h".toList, labels := ["staging".toList] },
        { percentage := 100, duration := "stable".toList, labels := target_labels } ]
    evaluation_metric := config.evaluation_metric
    threshold := config.threshold
    rollback_on_failure := true }

/-- The `config` entry of the Langfuse write payload (lines 148-154):
`commitMessage` merged with the draft's config fields. -/
structure ConfigPayload where
  commitMessage : Option Str
  temperature : Option Rat
  max_tokens : Option Int
  model : Option Str
deriving DecidableEq

/-- The `prompt_data` payload handed to `lf.create_prompt` (lines 141-154). -/
structure PromptData where
  name : Str
  type : Str
  prompt : PromptContent
  labels : List Str
  config : Option ConfigPayload
deriving DecidableEq

/-- Spread of `request.draft.config.dict()` into the payload config. -/
def configPayloadOfConfig (c : PromptConfig) : ConfigPayload :=
  { commitMessage := none, temperature := c.temperature,
    max_tokens := c.max_tokens, model := c.model }

/-- Build the Langfuse write payload (lines 141-154): name, declared
type, optimized content, labels, and the merged config when present. -/
def buildPromptData (req : OptimizeRequest) (optimized : PromptContent) : PromptData :=
  { name := req.name
    type := req.draft.type
    prompt := optimized
    labels := req.labels
    config :=
      match req.commit_message, req.draft.config with
      | some msg, some c => some { configPayloadOfConfig c with commitMessage := some msg }
      | some msg, none =>
          some { commitMessage := some msg, temperature := none,
                 max_tokens := none, model := none }
      | none, some c => some (configPayloadOfConfig c)
      | none, none => none }

/-- The object returned by `lf.create_prompt`; only `version` is read. -/
structure CreatedPrompt where
  version : Int
deriving DecidableEq

/-- An `HTTPException` raised by a handler: status code and detail text. -/
inductive HTTPError where
  | httpError (status : Int) (detail : Str)
deriving DecidableEq

/-- The simulated metrics dictionary of lines 164-169.  The Python float
literals are represented as the rationals they denote in the source text. -/
def simulatedMetrics : List (Str × Rat) :=
  [ ("token_reduction".toList, 15/100),
    ("clarity_score".toList, 92/100),
    ("coherence_score".toList, 89/100),
    ("optimization_iterations".toList, 3) ]

/-- `OptimizeResponse` pydantic model. -/
structure OptimizeResponse where
  version : Int
  labels : List Str
  optimized_prompt : PromptContent
  rollout_plan : Option RolloutPlan
  metrics : Option (List (Str × Rat))
deriving DecidableEq

/-- The `POST /optimize` handler `optimize_prompt` (lines 88-195), with
the Langfuse `create_prompt` call passed in as a function.  A failing
registry call is caught and re-raised as a 500 `HTTPException` with the
collaborator's message appended (lines 181-186); the remaining body is
pure and raises nothing else. -/
def optimize_prompt (create : PromptData → Except Str CreatedPrompt)
    (request : OptimizeRequest) : Except HTTPError OptimizeResponse :=
  match create (buildPromptData request
      (optimizeContent request.objective request.draft.prompt)) with
  | .ok created =>
      .ok { version := created.version
            labels := request.labels
            optimized_prompt := optimizeContent request.objective request.draft.prompt
            rollout_plan := request.rollout.map (fun rc => makeRolloutPlan rc request.labels)
            metrics := some simulatedMetrics }
  | .error msg =>
      .error (.httpError 500 (("Failed to store prompt in Langfuse: ".toList) ++ msg))

/-- A pydantic `ValidationError`: the offending field and the violated
constraint. -/
inductive ValidationError where
  | fieldError (loc : Str) (msg : Str)
deriving DecidableEq

/-- Pydantic validation of `RolloutConfig` (lines 49-54): `percentage`
carries `ge=0, le=100`; no other field is constrained. -/
def validateRolloutConfig (c : RolloutConfig) : Except ValidationError RolloutConfig :=
  if c.percentage < 0 then
    .error (.fieldError ("percentage".toList) ("greater_than_equal".toList))
  else if 100 < c.percentage then
    .error (.fieldError ("percentage".toList) ("less_than_equal".toList))
  else
    .ok c

/-- Pydantic validation of an `OptimizeRequest` at the FastAPI boundary.
The only constrained field is `rollout.percentage`; in particular
`draft.prompt` is declared `Any` and its shape is never checked. -/
def validateOptimizeRequest (req : OptimizeRequest) : Except ValidationError OptimizeRequest :=
  match req.rollout with
  | some rc => (validateRolloutConfig rc).map (fun rc2 => { req with rollout := some rc2 })
  | none => .ok req

/-- The `/optimize` endpoint as seen by a caller: pydantic validation of
the request body, then the handler. -/
def handle_optimize (create : PromptData → Except Str CreatedPrompt)
    (req : OptimizeRequest) :
    Except ValidationError (Except HTTPError OptimizeResponse) :=
  (validateOptimizeRequest req).map (optimize_prompt create)

/-- A failure raised by the Langfuse client on `get_prompt`: either no
version carries the requested label, or the backend failed. -/
inductive RegFailure where
  | notFound (msg : Str)
  | backend (msg : Str)
deriving DecidableEq

/-- A prompt version held by the Langfuse registry. -/
structure PromptVersion where
  name : Str
  version : Int
  prompt : PromptContent
  config : Option ConfigPayload
  labels : List Str
deriving DecidableEq

/-- The response dictionary of the `GET /prompts/{name}` handler. -/
structure GetPromptResponse where
  name : Str
  version : Int
  prompt : PromptContent
  config : Option ConfigPayload
  labels : List Str
deriving DecidableEq

/-- The 404 detail text `f"Prompt not found: {name} (label: {label})"`. -/
def notFoundDetail (name label : Str) : Str :=
  ("Prompt not found: ".toList) ++ name ++ (" (label: ".toList) ++ label ++ (")".toList)

/-- The `GET /prompts/{name}` handler `get_prompt` (lines 198-219), with
the Langfuse `get_prompt` call passed in as a function.  Its `except`
clause catches every exception and raises a 404 `HTTPException`. -/
def get_prompt (getp : Str → Str → Except RegFailure PromptVersion)
    (name label : Str) : Except HTTPError GetPromptResponse :=
  match getp name label with
  | .ok p =>
      .ok { name := name, version := p.version, prompt := p.prompt,
            config := p.config, labels := p.labels }
  | .error _ => .error (.httpError 404 (notFoundDetail name label))

/-- Lookup of a version by `(name, label)` in an in-memory registry
store, modelling the Langfuse client's `get_prompt`. -/
def lookupByLabel (store : List PromptVersion) (name label : Str) :
    Except RegFailure PromptVersion :=
  match store.find? (fun v => v.name == name && v.labels.contains label) with
  | some v => .ok v
  | none => .error (.notFound (notFoundDetail name label))

/-- The message text of a failure raised by the registry client. -/
def RegFailure.text : RegFailure → Str
  | .notFound msg => msg
  | .backend msg => msg

/-- The response dictionary of the promote handler (lines 238-242). -/
structure PromoteResponse where
  message : Str
  version : Int
  labels : List Str
deriving DecidableEq

/-- The promotion message `f"Prompt {name} promoted from {f} to {t}"`. -/
def promoteMessage (name from_label to_label : Str) : Str :=
  ("Prompt ".toList) ++ name ++ (" promoted from ".toList) ++ from_label
    ++ (" to ".toList) ++ to_label

/-- The `POST /rollout/{name}/promote` handler `promote_rollout`
(lines 222-248) over an in-memory registry store.  The handler only
reads (`lf.get_prompt` with the source label) and never writes, so the
store is returned unchanged together with the response. -/
def promote_rollout (store : List PromptVersion)
    (name from_label to_label : Str) :
    List PromptVersion × Except HTTPError PromoteResponse :=
  match lookupByLabel store name from_label with
  | .ok p =>
      (store,
        .ok { message := promoteMessage name from_label to_label,
              version := p.version, labels := [to_label] })
  | .error e =>
      (store,
        .error (.httpError 500 (("Failed to promote prompt: ".toList) ++ e.text)))

/-- A valid rollout config whose initial percentage (80) exceeds the
hard-coded middle phase percentage (50). -/
def cfg80 : RolloutConfig :=
  { strategy := "canary".toList, percentage := 80,
    evaluation_metric := "success_rate".toList, threshold := 1 }

/-- A rollout config whose percentage (150) is out of range. -/
def cfg150 : RolloutConfig :=
  { strategy := "gradual".toList, percentage := 150,
    evaluation_metric := "success_rate".toList, threshold := 1 }

/-- A small valid rollout config used as a witness input. -/
def cfg10 : RolloutConfig :=
  { strategy := "gradual".toList, percentage := 10,
    evaluation_metric := "success_rate".toList, threshold := 1 }

/-- A chat message whose content the conciseness rule would change. -/
def pleaseMsg : ChatMessage :=
  { role := "user".toList, content := "Please help.".toList }

/-- A draft declared `chat` whose runtime content is a plain string. -/
def chatTypedStrDraft : PromptDraft :=
  { type := "chat".toList, prompt := .str ("Please go.".toList), config := none }

/-- The end-to-end request of the specification:
`{name: "greeting", draft: {type: "text", prompt: "Please help."},
objective: "reduce tokens", labels: ["staging"]}`. -/
def greetingReq : OptimizeRequest :=
  { name := "greeting".toList
    current_prompt := none
    draft := { type := "text".toList, prompt := .str ("Please help.".toList), config := none }
    objective := "reduce tokens".toList
    commit_message := none
    labels := ["staging".toList]
    rollout := none }

/-- A request whose draft is malformed: content is a message list while
the declared type is `text`. -/
def malformedReq : OptimizeRequest :=
  { name := "greeting".toList
    current_prompt := none
    draft := { type := "text".toList, prompt := .arr [pleaseMsg], config := none }
    objective := "improve clarity".toList
    commit_message := none
    labels := ["staging".toList]
    rollout := none }

/-- A request carrying the out-of-range rollout config `cfg150`. -/
def outOfRangeReq : OptimizeRequest :=
  { greetingReq with rollout := some cfg150 }

/-- A registry create function that always succeeds with version 1. -/
def okCreate1 : PromptData → Except Str CreatedPrompt :=
  fun _ => .ok { version := 1 }

/-- A registry create function that always succeeds with version 7. -/
def okCreate7 : PromptData → Except Str CreatedPrompt :=
  fun _ => .ok { version := 7 }

/-- A registry store holding one version of "greeting", version 1,
labelled only "staging". -/
def stagingV1 : PromptVersion :=
  { name := "greeting".toList, version := 1,
    prompt := .str ("help.".toList), config := none,
    labels := ["staging".toList] }

/-- A one-element registry store used for the promote scenario. -/
def store1 : List PromptVersion := [stagingV1]

/-- C1: for every text draft whose content is a string and every
objective containing "clarity" in any case, the optimized content is
the draft's content followed by the fixed clarifying suffix. -/
theorem clarity_appends_suffix (d : PromptDraft) (s obj : Str)
    (htype : d.type = "text".toList)
    (hcontent : d.prompt = PromptContent.str s)
    (hobj : containsSub ("clarity".toList) (strLower obj) = true) :
    optimizeContent obj d.prompt = PromptContent.str (s ++ claritySuffix) := by
  rw [hcontent]
  unfold optimizeContent
  rw [if_pos hobj]
  rfl

/-- Witness for C1 at the draft of the end-to-end request and the
objective "Improve CLARITY". -/
theorem clarity_appends_suffix_witness :
    optimizeContent ("Improve CLARITY".toList) greetingReq.draft.prompt
      = PromptContent.str ("Please help.".toList ++ claritySuffix) :=
  clarity_appends_suffix greetingReq.draft ("Please help.".toList)
    ("Improve CLARITY".toList) rfl rfl (by decide)

/-- C10: when the lower-cased objective contains "clarity" and also a
conciseness keyword ("concise" or "reduce tokens"), only the clarity
transformation is applied — the `elif` makes the branches mutually
exclusive with clarity first, so the conciseness substitutions are
never combined with the clarity suffix. -/
theorem clarity_precedence (obj : Str) (content : PromptContent)
    (hclar : containsSub ("clarity".toList) (strLower obj) = true)
    (hconc : (containsSub ("concise".toList) (strLower obj)
        || containsSub ("reduce tokens".toList) (strLower obj)) = true) :
    optimizeContent obj content = clarityTransform content := by
  unfold optimizeContent
  rw [if_pos hclar]

/-- Witness for C10 at an objective containing both keyword families. -/
theorem clarity_precedence_witness :
    optimizeContent ("clarity and reduce tokens".toList)
        (PromptContent.str ("Please go.".toList))
      = clarityTransform (PromptContent.str ("Please go.".toList)) :=
  clarity_precedence ("clarity and reduce tokens".toList)
    (PromptContent.str ("Please go.".toList)) (by decide) (by decide)

/-- C2: for every valid rollout config (percentage in [0,100]) and
label set, the plan has exactly the three fixed phases in order —
canary at the config's percentage, expansion at 50 labelled staging,
full rollout at 100 with duration "stable" labelled with the target
labels — with rollback on failure always true and the evaluation
metric and threshold copied verbatim. -/
theorem plan_shape (c : RolloutConfig) (L : List Str)
    (h0 : 0 ≤ c.percentage) (h1 : c.percentage ≤ 100) :
    makeRolloutPlan c L =
      { strategy := c.strategy
        phases :=
          [ { percentage := c.percentage, duration := "1h".toList, labels := ["canary".toList] },
            { percentage := 50, duration := "4h".toList, labels := ["staging".toList] },
            { percentage := 100, duration := "stable".toList, labels := L } ]
        evaluation_metric := c.evaluation_metric
        threshold := c.threshold
        rollback_on_failure := true } := rfl

/-- Witness for C2 at the config with initial percentage 10. -/
theorem plan_shape_witness :
    makeRolloutPlan cfg10 ["production".toList] =
      { strategy := cfg10.strategy
        phases :=
          [ { percentage := cfg10.percentage, duration := "1h".toList, labels := ["canary".toList] },
            { percentage := 50, duration := "4h".toList, labels := ["staging".toList] },
            { percentage := 100, duration := "stable".toList, labels := ["production".toList] } ]
        evaluation_metric := cfg10.evaluation_metric
        threshold := cfg10.threshold
        rollback_on_failure := true } :=
  plan_shape cfg10 ["production".toList] (by decide) (by decide)

/-- C3 counterexample: at the valid initial percentage 80 the phase
percentages are [80, 50, 100], and even with the final phase removed
the sequence is not non-decreasing (80 > 50), so the claimed invariant
fails on a valid config. -/
theorem plan_not_monotone_at_80 :
    (0 ≤ cfg80.percentage ∧ cfg80.percentage ≤ 100) ∧
    (makeRolloutPlan cfg80 ["production".toList]).phases.map RolloutPhase.percentage
        = [80, 50, 100] ∧
    ¬ List.Chain' (fun a b => a ≤ b)
        (((makeRolloutPlan cfg80 ["production".toList]).phases.map
            RolloutPhase.percentage).dropLast) := by
  refine ⟨by decide, rfl, ?_⟩
  intro hch
  rw [show (((makeRolloutPlan cfg80 ["production".toList]).phases.map
      RolloutPhase.percentage).dropLast) = [(80 : Int), 50] from rfl] at hch
  rw [List.chain'_cons] at hch
  exact absurd hch.1 (by decide)

/-- C3 amended: for every valid config the final phase percentage is
100, and the phase percentages are non-decreasing exactly when the
initial percentage is at most the fixed middle percentage 50. -/
theorem plan_last_100_monotone_iff (c : RolloutConfig) (L : List Str)
    (h0 : 0 ≤ c.percentage) (h1 : c.percentage ≤ 100) :
    ((makeRolloutPlan c L).phases.map RolloutPhase.percentage).getLast? = some 100 ∧
    (List.Chain' (fun a b => a ≤ b)
        ((makeRolloutPlan c L).phases.map RolloutPhase.percentage)
      ↔ c.percentage ≤ 50) := by
  refine ⟨rfl, ?_⟩
  simp [makeRolloutPlan, List.chain'_cons]

/-- Witness for the amended C3 at the config with percentage 10. -/
theorem plan_last_100_monotone_iff_witness :
    ((makeRolloutPlan cfg10 ["production".toList]).phases.map
        RolloutPhase.percentage).getLast? = some 100 ∧
    (List.Chain' (fun a b => a ≤ b)
        ((makeRolloutPlan cfg10 ["production".toList]).phases.map
          RolloutPhase.percentage)
      ↔ cfg10.percentage ≤ 50) :=
  plan_last_100_monotone_iff cfg10 ["production".toList] (by decide) (by decide)

/-- C4 counterexample: for a chat draft the conciseness rule is not
applied to the messages — the message list comes back unchanged even
though the rule would change the message content — and the
transformation is applied to string content even under a draft whose
declared type is "chat", so it is not gated on `draft.type == text`. -/
theorem chat_rules_not_applied :
    optimizeContent ("reduce tokens".toList) (PromptContent.arr [pleaseMsg])
        = PromptContent.arr [pleaseMsg] ∧
    conciseContent pleaseMsg.content ≠ pleaseMsg.content ∧
    optimizeContent ("reduce tokens".toList) chatTypedStrDraft.prompt
        ≠ chatTypedStrDraft.prompt ∧
    chatTypedStrDraft.type ≠ "text".toList := by
  refine ⟨by decide, by decide, by decide, by decide⟩

/-- C4 amended: the engine applies a textual transformation exactly
when the runtime content is a string, independently of `draft.type`;
message-list (chat) content is always returned unchanged, so the
clarity/conciseness rules are not applied to individual messages, and
message roles and ordering are trivially never altered. -/
theorem chat_content_unchanged (obj : Str) (ms : List ChatMessage) :
    optimizeContent obj (PromptContent.arr ms) = PromptContent.arr ms := by
  unfold optimizeContent
  split
  · rfl
  · split
    · rfl
    · rfl

/-- C5: for the end-to-end request (name "greeting", text draft
"Please help.", objective "reduce tokens", labels ["staging"]), the
optimized content is "help." (the "Please " removed), the registry
create call receives exactly that content, the response version equals
whatever the registry returned, and the metrics mapping contains a
token_reduction key. -/
theorem end_to_end_reduce_tokens (create : PromptData → Except Str CreatedPrompt)
    (v : Int)
    (hcreate : create (buildPromptData greetingReq (PromptContent.str ("help.".toList)))
        = Except.ok { version := v }) :
    (buildPromptData greetingReq
        (optimizeContent greetingReq.objective greetingReq.draft.prompt)).prompt
      = PromptContent.str ("help.".toList) ∧
    optimize_prompt create greetingReq =
      Except.ok
        { version := v,
          labels := ["staging".toList],
          optimized_prompt := PromptContent.str ("help.".toList),
          rollout_plan := none,
          metrics := some simulatedMetrics } ∧
    (simulatedMetrics.map Prod.fst).contains ("token_reduction".toList) = true := by
  have hopt : optimizeContent greetingReq.objective greetingReq.draft.prompt
      = PromptContent.str ("help.".toList) := by decide
  refine ⟨by rw [hopt]; rfl, ?_, by decide⟩
  unfold optimize_prompt
  rw [hopt, hcreate]
  rfl

/-- Witness for C5 with a registry stub that returns version 7. -/
theorem end_to_end_reduce_tokens_witness :
    (buildPromptData greetingReq
        (optimizeContent greetingReq.objective greetingReq.draft.prompt)).prompt
      = PromptContent.str ("help.".toList) ∧
    optimize_prompt okCreate7 greetingReq =
      Except.ok
        { version := 7,
          labels := ["staging".toList],
          optimized_prompt := PromptContent.str ("help.".toList),
          rollout_plan := none,
          metrics := some simulatedMetrics } ∧
    (simulatedMetrics.map Prod.fst).contains ("token_reduction".toList) = true :=
  end_to_end_reduce_tokens okCreate7 7 rfl

/-- C6 counterexample: a draft whose content is a message list while
its declared type is "text" passes validation (the `prompt` field is
declared `Any`, so pydantic checks no shape) and the optimize operation
returns a normal response — no ValidationError is raised. -/
theorem malformed_draft_no_validation_error :
    validateOptimizeRequest malformedReq = Except.ok malformedReq ∧
    handle_optimize okCreate1 malformedReq =
      Except.ok (Except.ok
        { version := 1,
          labels := ["staging".toList],
          optimized_prompt := PromptContent.arr [pleaseMsg],
          rollout_plan := none,
          metrics := some simulatedMetrics }) :=
  ⟨rfl, rfl⟩

/-- C6 amended: the optimize operation never fails for any draft
content shape — content whose runtime shape does not match the declared
draft type is accepted without a ValidationError and processed like any
other content — provided the rollout config is absent (validation
constrains only `rollout.percentage`) and the registry call succeeds. -/
theorem any_content_shape_accepted (create : PromptData → Except Str CreatedPrompt)
    (req : OptimizeRequest) (v : Int)
    (hrol : req.rollout = none)
    (hcreate : create (buildPromptData req
        (optimizeContent req.objective req.draft.prompt))
      = Except.ok { version := v }) :
    validateOptimizeRequest req = Except.ok req ∧
    handle_optimize create req =
      Except.ok (Except.ok
        { version := v,
          labels := req.labels,
          optimized_prompt := optimizeContent req.objective req.draft.prompt,
          rollout_plan := none,
          metrics := some simulatedMetrics }) := by
  have hval : validateOptimizeRequest req = Except.ok req := by
    unfold validateOptimizeRequest
    rw [hrol]
  refine ⟨hval, ?_⟩
  unfold handle_optimize
  rw [hval]
  show Except.ok (optimize_prompt create req) = _
  unfold optimize_prompt
  rw [hcreate, hrol]
  rfl

/-- Witness for the amended C6 at the malformed request. -/
theorem any_content_shape_accepted_witness :
    validateOptimizeRequest malformedReq = Except.ok malformedReq ∧
    handle_optimize okCreate1 malformedReq =
      Except.ok (Except.ok
        { version := 1,
          labels := malformedReq.labels,
          optimized_prompt :=
            optimizeContent malformedReq.objective malformedReq.draft.prompt,
          rollout_plan := none,
          metrics := some simulatedMetrics }) :=
  any_content_shape_accepted okCreate1 malformedReq 1 rfl rfl

/-- C7: a rollout config whose percentage lies outside [0,100] is
rejected by pydantic validation at the request boundary, so the
endpoint fails with a ValidationError and no rollout plan (indeed no
response at all) is produced. -/
theorem out_of_range_rollout_rejected (create : PromptData → Except Str CreatedPrompt)
    (req : OptimizeRequest) (rc : RolloutConfig)
    (h : req.rollout = some rc)
    (hp : rc.percentage < 0 ∨ 100 < rc.percentage) :
    ∃ e, handle_optimize create req = Except.error e := by
  have he : ∃ e, validateRolloutConfig rc = Except.error e := by
    unfold validateRolloutConfig
    rcases hp with hp | hp
    · rw [if_pos hp]
      exact ⟨_, rfl⟩
    · rw [if_neg (by omega), if_pos hp]
      exact ⟨_, rfl⟩
  obtain ⟨e, he⟩ := he
  refine ⟨e, ?_⟩
  unfold handle_optimize validateOptimizeRequest
  rw [h]
  show ((validateRolloutConfig rc).map _).map _ = _
  rw [he]
  rfl

/-- Witness for C7 at the request with rollout percentage 150. -/
theorem out_of_range_rollout_rejected_witness :
    ∃ e, handle_optimize okCreate1 outOfRangeReq = Except.error e :=
  out_of_range_rollout_rejected okCreate1 outOfRangeReq cfg150 rfl
    (Or.inr (by decide))

/-- C8 counterexample: a backend failure of the registry during get is
reported as a 404 not-found — the handler's `except` clause catches
every exception and raises the not-found HTTPException, so backend
failures are not kept distinct from not-found. -/
theorem backend_failure_reported_as_not_found :
    get_prompt (fun _ _ => Except.error (RegFailure.backend ("connection reset".toList)))
        ("greeting".toList) ("production".toList)
      = Except.error (HTTPError.httpError 404
          (notFoundDetail ("greeting".toList) ("production".toList))) :=
  rfl

/-- C8 amended: the get-prompt operation surfaces the 404 not-found
failure exactly when the registry get fails for any reason — whether no
version carries the requested label or the backend failed — the two
causes are not distinguished. -/
theorem get_prompt_404_iff_failure (getp : Str → Str → Except RegFailure PromptVersion)
    (name label : Str) :
    (∃ e, getp name label = Except.error e) ↔
      get_prompt getp name label
        = Except.error (HTTPError.httpError 404 (notFoundDetail name label)) := by
  unfold get_prompt
  rcases hg : getp name label with e | p
  · simp [hg]
  · simp [hg]

/-- C9 counterexample: promoting "greeting" from "staging" to
"production" over a store holding one staging-labelled version leaves
the store unchanged — the stored version still does not carry
"production" — while the response nevertheless reports labels
["production"]; the handler only reads and never updates labels. -/
theorem promote_does_not_update_labels :
    (promote_rollout store1 ("greeting".toList) ("staging".toList)
        ("production".toList)).fst = [stagingV1] ∧
    stagingV1.labels = ["staging".toList] ∧
    ("production".toList) ∉ stagingV1.labels ∧
    (promote_rollout store1 ("greeting".toList) ("staging".toList)
        ("production".toList)).snd
      = Except.ok
          { message :=
              promoteMessage ("greeting".toList) ("staging".toList) ("production".toList),
            version := 1,
            labels := ["production".toList] } := by
  refine ⟨rfl, rfl, by decide, rfl⟩

/-- C9 amended: when a version carries the source label, promote
returns that version's number with response labels exactly
[to_label] (which therefore include to_label), but performs no registry
write — the store is returned unchanged. -/
theorem promote_reads_only (store : List PromptVersion)
    (name from_label to_label : Str) (p : PromptVersion)
    (h : lookupByLabel store name from_label = Except.ok p) :
    promote_rollout store name from_label to_label =
      (store,
        Except.ok
          { message := promoteMessage name from_label to_label,
            version := p.version,
            labels := [to_label] }) ∧
    to_label ∈ (PromoteResponse.mk (promoteMessage name from_label to_label)
        p.version [to_label]).labels := by
  refine ⟨?_, by simp⟩
  unfold promote_rollout
  rw [h]

/-- Witness for the amended C9 at the one-version staging store. -/
theorem promote_reads_only_witness :
    promote_rollout store1 ("greeting".toList) ("staging".toList)
        ("production".toList) =
      (store1,
        Except.ok
          { message :=
              promoteMessage ("greeting".toList) ("staging".toList) ("production".toList),
            version := stagingV1.version,
            labels := ["production".toList] }) ∧
    ("production".toList) ∈ (PromoteResponse.mk (promoteMessage ("greeting".toList)
        ("staging".toList) ("production".toList))
        stagingV1.version [("production".toList)]).labels :=
  promote_reads_only store1 ("greeting".toList) ("staging".toList)
    ("production".toList) stagingV1 rfl

end PromptOpt
